import Mathlib

/-!
Shallow embedding of the graph-relationship data-access layer of the
`nosql-tp2-neo4j` service (Flask routes over a Neo4j property graph accessed
through the py2neo OGM).

Modelling conventions:
* UUID string keys and numeric timestamps are abstracted to `Nat`; the state
  carries a `next_id` supply (each `uuid4()` call draws a fresh value) and a
  `now` clock (the value `time()` returns during the request).
* py2neo `RelatedTo` collections are edge sets: `add` inserts the directed
  edge if absent (no parallel duplicates), `remove` filters it out, `in`
  tests membership.  Edges are kept as association lists of ordered id pairs.
* `repo.match(Model, key).first()` is a first-match scan on the node list
  (`List.find?`); `graph.create` appends a node; `repo.save` writes the
  mutated node back over every node carrying its key; `repo.delete` removes
  the node and every edge incident to it.
* Each Flask handler becomes a total function from the graph state and its
  request data to an `Out α`: the response (`Except ApiError α`, one
  constructor per distinct error response the handler can produce) together
  with the post-state.  Request bodies are records of `Option` fields
  (`none` = key absent from the JSON object).
-/

/-- A `User` node (models.py): properties `user_id`, `name`, `email`,
`created_at`. -/
structure UserNode where
  user_id : Nat
  name : String
  email : String
  created_at : Nat
deriving DecidableEq, Repr

/-- A `Post` node (models.py): properties `post_id`, `title`, `content`,
`created_at`. -/
structure PostNode where
  post_id : Nat
  title : String
  content : String
  created_at : Nat
deriving DecidableEq, Repr

/-- A `Comment` node (models.py): properties `comment_id`, `content`,
`created_at`. -/
structure CommentNode where
  comment_id : Nat
  content : String
  created_at : Nat
deriving DecidableEq, Repr

/-- The whole graph-store state: the three node collections, one collection
per typed directed edge (ordered id pairs), plus the id supply and clock. -/
structure GraphState where
  users : List UserNode
  posts : List PostNode
  comments : List CommentNode
  friends_with : List (Nat × Nat)
  posts_likes : List (Nat × Nat)
  comments_likes : List (Nat × Nat)
  posts_created : List (Nat × Nat)
  comments_created : List (Nat × Nat)
  has_comment : List (Nat × Nat)
  next_id : Nat
  now : Nat
deriving DecidableEq, Repr

/-- One constructor per distinct error response a handler can return.
`missingField` is the 400 "property is missing" family, the `...NotFound`
constructors are the 404 family (distinct response messages in the source),
`commentNotFoundInPost` is the scoped "Comment not found in Post {post_id}"
404, and `attributeError` is an unhandled Python `AttributeError` (a 500). -/
inductive ApiError where
  | userNotFound
  | friendNotFound
  | otherUserNotFound
  | postNotFound
  | commentNotFound
  | commentNotFoundInPost (post_id : Nat)
  | missingField (field : String)
  | attributeError (attr : String)
deriving DecidableEq, Repr

/-- Outcome of one handler call: the response and the post-state. -/
structure Out (α : Type) where
  res : Except ApiError α
  state : GraphState

instance {ε α : Type} [DecidableEq ε] [DecidableEq α] : DecidableEq (Except ε α)
  | .ok x, .ok y =>
    if h : x = y then .isTrue (by rw [h])
    else .isFalse (by intro he; cases he; exact h rfl)
  | .ok _, .error _ => .isFalse (by intro h; cases h)
  | .error _, .ok _ => .isFalse (by intro h; cases h)
  | .error x, .error y =>
    if h : x = y then .isTrue (by rw [h])
    else .isFalse (by intro he; cases he; exact h rfl)

instance {α : Type} [DecidableEq α] : DecidableEq (Out α) := fun a b =>
  if h1 : a.res = b.res then
    if h2 : a.state = b.state then
      .isTrue (by cases a; cases b; cases h1; cases h2; rfl)
    else .isFalse (by intro h; cases h; exact h2 rfl)
  else .isFalse (by intro h; cases h; exact h1 rfl)

/-- py2neo `RelatedTo.add`: insert the directed edge if absent (set
semantics — the store never holds two parallel edges of the same type). -/
def addEdge (l : List (Nat × Nat)) (e : Nat × Nat) : List (Nat × Nat) :=
  if e ∈ l then l else l ++ [e]

/-- py2neo `RelatedTo.remove`: drop the directed edge; a no-op if absent. -/
def removeEdge (l : List (Nat × Nat)) (e : Nat × Nat) : List (Nat × Nat) :=
  l.filter (fun x => decide (x ≠ e))

/-- `repo.match(User, user_id).first()`. -/
def repoMatchUser (s : GraphState) (user_id : Nat) : Option UserNode :=
  s.users.find? (fun u => decide (u.user_id = user_id))

/-- `repo.match(Post, post_id).first()`. -/
def repoMatchPost (s : GraphState) (post_id : Nat) : Option PostNode :=
  s.posts.find? (fun p => decide (p.post_id = post_id))

/-- `repo.match(Comment, comment_id).first()`. -/
def repoMatchComment (s : GraphState) (comment_id : Nat) : Option CommentNode :=
  s.comments.find? (fun c => decide (c.comment_id = comment_id))

/-- `graph.create(user_node)`: append the node and consume the drawn id. -/
def graphCreateUser (s : GraphState) (u : UserNode) : GraphState :=
  { s with users := s.users ++ [u], next_id := s.next_id + 1 }

/-- `graph.create(post_node)`. -/
def graphCreatePost (s : GraphState) (p : PostNode) : GraphState :=
  { s with posts := s.posts ++ [p], next_id := s.next_id + 1 }

/-- `graph.create(comment_node)`. -/
def graphCreateComment (s : GraphState) (c : CommentNode) : GraphState :=
  { s with comments := s.comments ++ [c], next_id := s.next_id + 1 }

/-- `repo.save(user)`: persist the mutated properties of the node carrying
this primary key. -/
def repoSaveUser (s : GraphState) (u : UserNode) : GraphState :=
  { s with users := s.users.map (fun x => if x.user_id = u.user_id then u else x) }

/-- `repo.save(post)`. -/
def repoSavePost (s : GraphState) (p : PostNode) : GraphState :=
  { s with posts := s.posts.map (fun x => if x.post_id = p.post_id then p else x) }

/-- `repo.save(comment)`. -/
def repoSaveComment (s : GraphState) (c : CommentNode) : GraphState :=
  { s with comments := s.comments.map (fun x => if x.comment_id = c.comment_id then c else x) }

/-- `repo.delete(user)`: remove the node and every edge incident to it. -/
def repoDeleteUser (s : GraphState) (uid : Nat) : GraphState :=
  { s with
    users := s.users.filter (fun u => decide (u.user_id ≠ uid))
    friends_with := s.friends_with.filter (fun e => decide (e.1 ≠ uid ∧ e.2 ≠ uid))
    posts_likes := s.posts_likes.filter (fun e => decide (e.1 ≠ uid))
    comments_likes := s.comments_likes.filter (fun e => decide (e.1 ≠ uid))
    posts_created := s.posts_created.filter (fun e => decide (e.1 ≠ uid))
    comments_created := s.comments_created.filter (fun e => decide (e.1 ≠ uid)) }

/-- `repo.delete(post)`: remove the node and every edge incident to it. -/
def repoDeletePost (s : GraphState) (pid : Nat) : GraphState :=
  { s with
    posts := s.posts.filter (fun p => decide (p.post_id ≠ pid))
    posts_likes := s.posts_likes.filter (fun e => decide (e.2 ≠ pid))
    posts_created := s.posts_created.filter (fun e => decide (e.2 ≠ pid))
    has_comment := s.has_comment.filter (fun e => decide (e.1 ≠ pid)) }

/-- `repo.delete(comment)`: remove the node and every edge incident to it. -/
def repoDeleteComment (s : GraphState) (cid : Nat) : GraphState :=
  { s with
    comments := s.comments.filter (fun c => decide (c.comment_id ≠ cid))
    comments_likes := s.comments_likes.filter (fun e => decide (e.2 ≠ cid))
    comments_created := s.comments_created.filter (fun e => decide (e.2 ≠ cid))
    has_comment := s.has_comment.filter (fun e => decide (e.2 ≠ cid)) }

/-- Outgoing `FRIENDS_WITH` neighbour ids of a user (iterating
`user.friends_with`). -/
def friendsOf (s : GraphState) (uid : Nat) : List Nat :=
  (s.friends_with.filter (fun e => decide (e.1 = uid))).map (fun e => e.2)

/-- Outgoing `HAS_COMMENT` neighbour ids of a post (iterating
`post.has_comment`). -/
def commentsOf (s : GraphState) (pid : Nat) : List Nat :=
  (s.has_comment.filter (fun e => decide (e.1 = pid))).map (fun e => e.2)

/-- Posts connected to a user by an outgoing `CREATED` edge. -/
def postsCreatedBy (s : GraphState) (uid : Nat) : List Nat :=
  (s.posts_created.filter (fun e => decide (e.1 = uid))).map (fun e => e.2)

/-- The relationship attributes the `User` model defines (models.py lines
13-17).  Accessing any other attribute on a `User` instance raises
`AttributeError`. -/
def userModelRelAttrs : List String :=
  ["friends_with", "posts_likes", "comments_likes", "posts_created", "comments_created"]

namespace users

/-- Request body of `POST /users`. -/
structure CreateUserData where
  name : Option String
  email : Option String
deriving DecidableEq, Repr

/-- Request body of `PUT /users/<user_id>`. -/
structure UpdateUserData where
  name : Option String
  email : Option String
deriving DecidableEq, Repr

/-- Request body of `POST /users/<user_id>/friends`. -/
structure AddFriendData where
  friend_id : Option Nat
deriving DecidableEq, Repr

/-- Request body of `POST /users/<user_id>/posts`. -/
structure CreatePostData where
  title : Option String
  content : Option String
deriving DecidableEq, Repr

/-- `GET /users/<user_id>` (users.py `get_user_by_id`). -/
def get_user_by_id (s : GraphState) (user_id : Nat) : Out UserNode :=
  match repoMatchUser s user_id with
  | none => ⟨.error .userNotFound, s⟩
  | some user => ⟨.ok user, s⟩

/-- `POST /users` (users.py `create_user`). -/
def create_user (s : GraphState) (data : CreateUserData) : Out Unit :=
  match data.name with
  | none => ⟨.error (.missingField "name"), s⟩
  | some name =>
    match data.email with
    | none => ⟨.error (.missingField "email"), s⟩
    | some email =>
      let user : UserNode :=
        { user_id := s.next_id, name := name, email := email, created_at := s.now }
      ⟨.ok (), graphCreateUser s user⟩

/-- `PUT /users/<user_id>` (users.py `update_user`). -/
def update_user (s : GraphState) (user_id : Nat) (data : UpdateUserData) : Out Unit :=
  match repoMatchUser s user_id with
  | none => ⟨.error .userNotFound, s⟩
  | some user =>
    let user := match data.name with
      | some n => { user with name := n }
      | none => user
    let user := match data.email with
      | some e => { user with email := e }
      | none => user
    ⟨.ok (), repoSaveUser s user⟩

/-- `DELETE /users/<user_id>` (users.py `delete_user`). -/
def delete_user (s : GraphState) (user_id : Nat) : Out Unit :=
  match repoMatchUser s user_id with
  | none => ⟨.error .userNotFound, s⟩
  | some user => ⟨.ok (), repoDeleteUser s user.user_id⟩

/-- `POST /users/<user_id>/friends` (users.py `add_friend_to_user`): match
the user, check the `friend_id` field, match the friend, then add the
`FRIENDS_WITH` edge in both directions and save. -/
def add_friend_to_user (s : GraphState) (user_id : Nat) (data : AddFriendData) : Out Unit :=
  match repoMatchUser s user_id with
  | none => ⟨.error .userNotFound, s⟩
  | some user =>
    match data.friend_id with
    | none => ⟨.error (.missingField "friend_id"), s⟩
    | some friend_id =>
      match repoMatchUser s friend_id with
      | none => ⟨.error .friendNotFound, s⟩
      | some new_friend =>
        let s1 := { s with
          friends_with := addEdge s.friends_with (user.user_id, new_friend.user_id) }
        let s2 := { s1 with
          friends_with := addEdge s1.friends_with (new_friend.user_id, user.user_id) }
        ⟨.ok (), s2⟩

/-- `DELETE /users/<user_id>/friends/<friend_id>` (users.py
`remove_friend_to_user`): remove the `FRIENDS_WITH` edge in both
directions and save. -/
def remove_friend_to_user (s : GraphState) (user_id friend_id : Nat) : Out Unit :=
  match repoMatchUser s user_id with
  | none => ⟨.error .userNotFound, s⟩
  | some user =>
    match repoMatchUser s friend_id with
    | none => ⟨.error .friendNotFound, s⟩
    | some friend =>
      let s1 := { s with
        friends_with := removeEdge s.friends_with (user.user_id, friend.user_id) }
      let s2 := { s1 with
        friends_with := removeEdge s1.friends_with (friend.user_id, user.user_id) }
      ⟨.ok (), s2⟩

/-- `GET /users/<user_id>/friends/<friend_id>` (users.py
`check_users_are_friends`): `friend in user.friends_with`. -/
def check_users_are_friends (s : GraphState) (user_id friend_id : Nat) : Out Bool :=
  match repoMatchUser s user_id with
  | none => ⟨.error .userNotFound, s⟩
  | some user =>
    match repoMatchUser s friend_id with
    | none => ⟨.error .friendNotFound, s⟩
    | some friend =>
      if (user.user_id, friend.user_id) ∈ s.friends_with then ⟨.ok true, s⟩
      else ⟨.ok false, s⟩

/-- `GET /users/<user_id>/mutual-friends/<other_id>` (users.py
`get_mutual_friends`): collect both neighbour id lists and return
`frozenset(user_friends).intersection(other_user_friends)` as a list. -/
def get_mutual_friends (s : GraphState) (user_id other_id : Nat) : Out (List Nat) :=
  match repoMatchUser s user_id with
  | none => ⟨.error .userNotFound, s⟩
  | some user =>
    match repoMatchUser s other_id with
    | none => ⟨.error .otherUserNotFound, s⟩
    | some other_user =>
      let user_friends := friendsOf s user.user_id
      let other_user_friends := friendsOf s other_user.user_id
      let mutual_friends :=
        (user_friends.filter (fun x => decide (x ∈ other_user_friends))).dedup
      ⟨.ok mutual_friends, s⟩

/-- `GET /users/<user_id>/posts` (users.py `get_user_posts`): the source
iterates `user.created`, an attribute the `User` model does not define
(the `CREATED` relationship attribute is named `posts_created`), so the
attribute access raises `AttributeError`. -/
def get_user_posts (s : GraphState) (user_id : Nat) : Out (List Nat) :=
  match repoMatchUser s user_id with
  | none => ⟨.error .userNotFound, s⟩
  | some user =>
    if "created" ∈ userModelRelAttrs then
      ⟨.ok (postsCreatedBy s user.user_id), s⟩
    else
      ⟨.error (.attributeError "created"), s⟩

/-- `POST /users/<user_id>/posts` (users.py `create_post`): match the user
first, then check `title` and `content`, create the post node and add the
`CREATED` edge. -/
def create_post (s : GraphState) (user_id : Nat) (data : CreatePostData) : Out Unit :=
  match repoMatchUser s user_id with
  | none => ⟨.error .userNotFound, s⟩
  | some user =>
    match data.title with
    | none => ⟨.error (.missingField "title"), s⟩
    | some title =>
      match data.content with
      | none => ⟨.error (.missingField "content"), s⟩
      | some content =>
        let post : PostNode :=
          { post_id := s.next_id, title := title, content := content, created_at := s.now }
        let s1 := graphCreatePost s post
        let s2 := { s1 with
          posts_created := addEdge s1.posts_created (user.user_id, post.post_id) }
        ⟨.ok (), s2⟩

end users

namespace posts

/-- Request body of the like / unlike routes. -/
structure LikeData where
  user_id : Option Nat
deriving DecidableEq, Repr

/-- Request body of `PUT /posts/<post_id>`. -/
structure UpdatePostData where
  title : Option String
  content : Option String
deriving DecidableEq, Repr

/-- Request body of `POST /posts/<post_id>/comments`. -/
structure CreateCommentData where
  user_id : Option Nat
  content : Option String
deriving DecidableEq, Repr

/-- `GET /posts/<post_id>` (posts.py `get_post_by_id`). -/
def get_post_by_id (s : GraphState) (post_id : Nat) : Out PostNode :=
  match repoMatchPost s post_id with
  | none => ⟨.error .postNotFound, s⟩
  | some post => ⟨.ok post, s⟩

/-- `PUT /posts/<post_id>` (posts.py `update_post`). -/
def update_post (s : GraphState) (post_id : Nat) (data : UpdatePostData) : Out Unit :=
  match repoMatchPost s post_id with
  | none => ⟨.error .postNotFound, s⟩
  | some post =>
    let post := match data.title with
      | some t => { post with title := t }
      | none => post
    let post := match data.content with
      | some c => { post with content := c }
      | none => post
    ⟨.ok (), repoSavePost s post⟩

/-- `DELETE /posts/<post_id>` (posts.py `delete_post`): delete every
comment in `post.has_comment`, then the post itself. -/
def delete_post (s : GraphState) (post_id : Nat) : Out Unit :=
  match repoMatchPost s post_id with
  | none => ⟨.error .postNotFound, s⟩
  | some post =>
    let s1 := (commentsOf s post.post_id).foldl (fun acc cid => repoDeleteComment acc cid) s
    ⟨.ok (), repoDeletePost s1 post.post_id⟩

/-- `POST /posts/<post_id>/like` (posts.py `add_like`): check the
`user_id` field, match the user, match the post, add the `LIKES` edge. -/
def add_like (s : GraphState) (post_id : Nat) (data : LikeData) : Out Unit :=
  match data.user_id with
  | none => ⟨.error (.missingField "user_id"), s⟩
  | some uid =>
    match repoMatchUser s uid with
    | none => ⟨.error .userNotFound, s⟩
    | some user =>
      match repoMatchPost s post_id with
      | none => ⟨.error .postNotFound, s⟩
      | some post =>
        ⟨.ok (), { s with
          posts_likes := addEdge s.posts_likes (user.user_id, post.post_id) }⟩

/-- `DELETE /posts/<post_id>/like` (posts.py `remove_like`). -/
def remove_like (s : GraphState) (post_id : Nat) (data : LikeData) : Out Unit :=
  match data.user_id with
  | none => ⟨.error (.missingField "user_id"), s⟩
  | some uid =>
    match repoMatchUser s uid with
    | none => ⟨.error .userNotFound, s⟩
    | some user =>
      match repoMatchPost s post_id with
      | none => ⟨.error .postNotFound, s⟩
      | some post =>
        ⟨.ok (), { s with
          posts_likes := removeEdge s.posts_likes (user.user_id, post.post_id) }⟩

/-- `POST /posts/<post_id>/comments` (posts.py `create_comment`): check
`user_id`, match the user, check `content`, match the post, create the
comment node and add the `CREATED` and `HAS_COMMENT` edges. -/
def create_comment (s : GraphState) (post_id : Nat) (data : CreateCommentData) : Out Unit :=
  match data.user_id with
  | none => ⟨.error (.missingField "user_id"), s⟩
  | some uid =>
    match repoMatchUser s uid with
    | none => ⟨.error .userNotFound, s⟩
    | some user =>
      match data.content with
      | none => ⟨.error (.missingField "content"), s⟩
      | some content =>
        match repoMatchPost s post_id with
        | none => ⟨.error .postNotFound, s⟩
        | some post =>
          let comment : CommentNode :=
            { comment_id := s.next_id, content := content, created_at := s.now }
          let s1 := graphCreateComment s comment
          let s2 := { s1 with
            comments_created := addEdge s1.comments_created (user.user_id, comment.comment_id) }
          let s3 := { s2 with
            has_comment := addEdge s2.has_comment (post.post_id, comment.comment_id) }
          ⟨.ok (), s3⟩

/-- `DELETE /posts/<post_id>/comments/<comment_id>` (posts.py
`delete_post_comment`): match the post, match the comment, require
`comment in post.has_comment`, then delete the comment. -/
def delete_post_comment (s : GraphState) (post_id comment_id : Nat) : Out Unit :=
  match repoMatchPost s post_id with
  | none => ⟨.error .postNotFound, s⟩
  | some post =>
    match repoMatchComment s comment_id with
    | none => ⟨.error .commentNotFound, s⟩
    | some comment =>
      if (post.post_id, comment.comment_id) ∈ s.has_comment then
        ⟨.ok (), repoDeleteComment s comment.comment_id⟩
      else
        ⟨.error (.commentNotFoundInPost post_id), s⟩

end posts

namespace comments

/-- Request body of `PUT /comments/<comment_id>`. -/
structure UpdateCommentData where
  content : Option String
deriving DecidableEq, Repr

/-- `GET /comments/<comment_id>` (comments.py `get_comment_by_id`). -/
def get_comment_by_id (s : GraphState) (comment_id : Nat) : Out CommentNode :=
  match repoMatchComment s comment_id with
  | none => ⟨.error .commentNotFound, s⟩
  | some comment => ⟨.ok comment, s⟩

/-- `PUT /comments/<comment_id>` (comments.py `update_comment`). -/
def update_comment (s : GraphState) (comment_id : Nat) (data : UpdateCommentData) : Out Unit :=
  match repoMatchComment s comment_id with
  | none => ⟨.error .commentNotFound, s⟩
  | some comment =>
    let comment := match data.content with
      | some c => { comment with content := c }
      | none => comment
    ⟨.ok (), repoSaveComment s comment⟩

/-- `DELETE /comments/<comment_id>` (comments.py `delete_comment`). -/
def delete_comment (s : GraphState) (comment_id : Nat) : Out Unit :=
  match repoMatchComment s comment_id with
  | none => ⟨.error .commentNotFound, s⟩
  | some comment => ⟨.ok (), repoDeleteComment s comment.comment_id⟩

/-- `POST /comments/<comment_id>/like` (comments.py `add_like`). -/
def add_like (s : GraphState) (comment_id : Nat) (data : posts.LikeData) : Out Unit :=
  match data.user_id with
  | none => ⟨.error (.missingField "user_id"), s⟩
  | some uid =>
    match repoMatchUser s uid with
    | none => ⟨.error .userNotFound, s⟩
    | some user =>
      match repoMatchComment s comment_id with
      | none => ⟨.error .commentNotFound, s⟩
      | some comment =>
        ⟨.ok (), { s with
          comments_likes := addEdge s.comments_likes (user.user_id, comment.comment_id) }⟩

/-- `DELETE /comments/<comment_id>/like` (comments.py `remove_like`). -/
def remove_like (s : GraphState) (comment_id : Nat) (data : posts.LikeData) : Out Unit :=
  match data.user_id with
  | none => ⟨.error (.missingField "user_id"), s⟩
  | some uid =>
    match repoMatchUser s uid with
    | none => ⟨.error .userNotFound, s⟩
    | some user =>
      match repoMatchComment s comment_id with
      | none => ⟨.error .commentNotFound, s⟩
      | some comment =>
        ⟨.ok (), { s with
          comments_likes := removeEdge s.comments_likes (user.user_id, comment.comment_id) }⟩

end comments

/-- One mutating API operation, with its request data. -/
inductive Op where
  | createUser (data : users.CreateUserData)
  | updateUser (user_id : Nat) (data : users.UpdateUserData)
  | deleteUser (user_id : Nat)
  | addFriend (user_id : Nat) (data : users.AddFriendData)
  | removeFriend (user_id friend_id : Nat)
  | createPost (user_id : Nat) (data : users.CreatePostData)
  | updatePost (post_id : Nat) (data : posts.UpdatePostData)
  | deletePost (post_id : Nat)
  | likePost (post_id : Nat) (data : posts.LikeData)
  | unlikePost (post_id : Nat) (data : posts.LikeData)
  | createComment (post_id : Nat) (data : posts.CreateCommentData)
  | deletePostComment (post_id comment_id : Nat)
  | updateComment (comment_id : Nat) (data : comments.UpdateCommentData)
  | deleteComment (comment_id : Nat)
  | likeComment (comment_id : Nat) (data : posts.LikeData)
  | unlikeComment (comment_id : Nat) (data : posts.LikeData)
deriving DecidableEq, Repr

/-- The store state an operation leaves behind (whatever its response). -/
def run (s : GraphState) : Op → GraphState
  | .createUser d => (users.create_user s d).state
  | .updateUser uid d => (users.update_user s uid d).state
  | .deleteUser uid => (users.delete_user s uid).state
  | .addFriend uid d => (users.add_friend_to_user s uid d).state
  | .removeFriend uid fid => (users.remove_friend_to_user s uid fid).state
  | .createPost uid d => (users.create_post s uid d).state
  | .updatePost pid d => (posts.update_post s pid d).state
  | .deletePost pid => (posts.delete_post s pid).state
  | .likePost pid d => (posts.add_like s pid d).state
  | .unlikePost pid d => (posts.remove_like s pid d).state
  | .createComment pid d => (posts.create_comment s pid d).state
  | .deletePostComment pid cid => (posts.delete_post_comment s pid cid).state
  | .updateComment cid d => (comments.update_comment s cid d).state
  | .deleteComment cid => (comments.delete_comment s cid).state
  | .likeComment cid d => (comments.add_like s cid d).state
  | .unlikeComment cid d => (comments.remove_like s cid d).state

/-- Symmetry of a `FRIENDS_WITH` edge list: every edge is accompanied by
its reverse. -/
def symmL (l : List (Nat × Nat)) : Prop :=
  ∀ e ∈ l, (e.2, e.1) ∈ l

instance (l : List (Nat × Nat)) : Decidable (symmL l) := by
  unfold symmL; infer_instance

/-- The `FRIENDS_WITH` relation of a state is symmetric. -/
def symmFriends (s : GraphState) : Prop :=
  symmL s.friends_with

instance (s : GraphState) : Decidable (symmFriends s) := by
  unfold symmFriends; infer_instance

/-- Key-supply well-formedness: every stored user id is below `next_id`
(so a freshly drawn id collides with no existing node). -/
def usersWF (s : GraphState) : Prop :=
  ∀ u ∈ s.users, u.user_id < s.next_id

instance (s : GraphState) : Decidable (usersWF s) := by
  unfold usersWF; infer_instance

/-- Primary keys of the user collection are pairwise distinct. -/
def usersNodupKeys (s : GraphState) : Prop :=
  (s.users.map UserNode.user_id).Nodup

instance (s : GraphState) : Decidable (usersNodupKeys s) := by
  unfold usersNodupKeys; infer_instance

/-- Primary keys of the post collection are pairwise distinct. -/
def postsNodupKeys (s : GraphState) : Prop :=
  (s.posts.map PostNode.post_id).Nodup

instance (s : GraphState) : Decidable (postsNodupKeys s) := by
  unfold postsNodupKeys; infer_instance

/-! ### Basic lemmas about the store primitives -/

theorem repoMatchUser_id {s : GraphState} {i : Nat} {u : UserNode}
    (h : repoMatchUser s i = some u) : u.user_id = i := by
  unfold repoMatchUser at h
  simpa using List.find?_some h

theorem repoMatchPost_id {s : GraphState} {i : Nat} {p : PostNode}
    (h : repoMatchPost s i = some p) : p.post_id = i := by
  unfold repoMatchPost at h
  simpa using List.find?_some h

theorem repoMatchComment_id {s : GraphState} {i : Nat} {c : CommentNode}
    (h : repoMatchComment s i = some c) : c.comment_id = i := by
  unfold repoMatchComment at h
  simpa using List.find?_some h

theorem repoMatchUser_mem {s : GraphState} {i : Nat} {u : UserNode}
    (h : repoMatchUser s i = some u) : u ∈ s.users := by
  unfold repoMatchUser at h
  exact List.mem_of_find?_eq_some h

theorem mem_addEdge {l : List (Nat × Nat)} {e x : Nat × Nat} :
    x ∈ addEdge l e ↔ x ∈ l ∨ x = e := by
  unfold addEdge
  split
  · rename_i hmem
    constructor
    · exact Or.inl
    · rintro (h | rfl)
      · exact h
      · exact hmem
  · simp [List.mem_append]

theorem addEdge_mem_self {l : List (Nat × Nat)} {e : Nat × Nat} : e ∈ addEdge l e :=
  mem_addEdge.mpr (Or.inr rfl)

theorem addEdge_eq_of_mem {l : List (Nat × Nat)} {e : Nat × Nat} (h : e ∈ l) :
    addEdge l e = l := by
  unfold addEdge
  simp [h]

theorem mem_removeEdge {l : List (Nat × Nat)} {e x : Nat × Nat} :
    x ∈ removeEdge l e ↔ x ∈ l ∧ x ≠ e := by
  unfold removeEdge
  simp [List.mem_filter]

theorem removeEdge_eq_of_not_mem {l : List (Nat × Nat)} {e : Nat × Nat} (h : e ∉ l) :
    removeEdge l e = l := by
  unfold removeEdge
  apply List.filter_eq_self.mpr
  intro a ha
  simp only [decide_eq_true_eq]
  rintro rfl
  exact h ha

/-! ### Symmetry of the friendship relation -/

theorem symmL_addEdge_pair {l : List (Nat × Nat)} (h : symmL l) (a b : Nat) :
    symmL (addEdge (addEdge l (a, b)) (b, a)) := by
  intro e he
  rcases mem_addEdge.mp he with he1 | rfl
  · rcases mem_addEdge.mp he1 with he2 | rfl
    · exact mem_addEdge.mpr (Or.inl (mem_addEdge.mpr (Or.inl (h e he2))))
    · exact mem_addEdge.mpr (Or.inr rfl)
  · exact mem_addEdge.mpr (Or.inl addEdge_mem_self)

theorem symmL_removeEdge_pair {l : List (Nat × Nat)} (h : symmL l) (a b : Nat) :
    symmL (removeEdge (removeEdge l (a, b)) (b, a)) := by
  intro e he
  obtain ⟨he1, hne1⟩ := mem_removeEdge.mp he
  obtain ⟨he2, hne2⟩ := mem_removeEdge.mp he1
  obtain ⟨x, y⟩ := e
  refine mem_removeEdge.mpr ⟨mem_removeEdge.mpr ⟨h (x, y) he2, ?_⟩, ?_⟩
  · intro hc
    apply hne1
    simp only [Prod.mk.injEq] at hc ⊢
    exact ⟨hc.2, hc.1⟩
  · intro hc
    apply hne2
    simp only [Prod.mk.injEq] at hc ⊢
    exact ⟨hc.2, hc.1⟩

theorem symmL_filter_incident {l : List (Nat × Nat)} (h : symmL l) (uid : Nat) :
    symmL (l.filter (fun e => decide (e.1 ≠ uid ∧ e.2 ≠ uid))) := by
  intro e he
  rw [List.mem_filter] at he ⊢
  obtain ⟨he1, he2⟩ := he
  refine ⟨h e he1, ?_⟩
  simp only [decide_eq_true_eq] at he2 ⊢
  exact ⟨he2.2, he2.1⟩

theorem foldl_deleteComment_friends (L : List Nat) :
    ∀ s : GraphState,
      (L.foldl (fun acc cid => repoDeleteComment acc cid) s).friends_with = s.friends_with := by
  induction L with
  | nil => intro s; rfl
  | cons a L ih =>
    intro s
    simpa using ih (repoDeleteComment s a)

theorem repoDeletePost_friends (s : GraphState) (pid : Nat) :
    (repoDeletePost s pid).friends_with = s.friends_with := rfl

theorem run_symmFriends (s : GraphState) (op : Op) (h : symmFriends s) :
    symmFriends (run s op) := by
  unfold symmFriends at h ⊢
  cases op <;>
    simp only [run, users.create_user, users.update_user, users.delete_user,
      users.add_friend_to_user, users.remove_friend_to_user, users.create_post,
      posts.update_post, posts.delete_post, posts.add_like, posts.remove_like,
      posts.create_comment, posts.delete_post_comment, comments.update_comment,
      comments.delete_comment, comments.add_like, comments.remove_like] <;>
    repeat' split
  all_goals
    first
      | exact h
      | exact symmL_filter_incident h _
      | exact symmL_addEdge_pair h _ _
      | exact symmL_removeEdge_pair h _ _
      | (intro e he
         dsimp only at he ⊢
         rw [repoDeletePost_friends, foldl_deleteComment_friends] at he
         rw [repoDeletePost_friends, foldl_deleteComment_friends]
         exact h e he)

theorem repoMatchUser_set_friends (s : GraphState) (L : List (Nat × Nat)) (i : Nat) :
    repoMatchUser { s with friends_with := L } i = repoMatchUser s i := rfl

theorem add_friend_state {s : GraphState} {uid fid : Nat} {u f : UserNode}
    (hu : repoMatchUser s uid = some u) (hf : repoMatchUser s fid = some f) :
    users.add_friend_to_user s uid ⟨some fid⟩ =
      ⟨.ok (),
       { s with friends_with := addEdge (addEdge s.friends_with (u.user_id, f.user_id)) (f.user_id, u.user_id) }⟩ := by
  simp only [users.add_friend_to_user, hu, hf]

theorem remove_friend_state {s : GraphState} {uid fid : Nat} {u f : UserNode}
    (hu : repoMatchUser s uid = some u) (hf : repoMatchUser s fid = some f) :
    users.remove_friend_to_user s uid fid =
      ⟨.ok (),
       { s with friends_with := removeEdge (removeEdge s.friends_with (u.user_id, f.user_id)) (f.user_id, u.user_id) }⟩ := by
  simp only [users.remove_friend_to_user, hu, hf]

/-- Claim C1: for distinct existing users A and B, after `add_friend_to_user`
succeeds the `FRIENDS_WITH` edge exists in both directions (the friendship
check answers `true` for (A,B) and for (B,A)); after `remove_friend_to_user`
succeeds both directions are absent (the check answers `false` both ways);
and no mutating API operation turns a symmetric `FRIENDS_WITH` relation into
an asymmetric one. -/
theorem C1_friendship_bidirectional :
    (∀ (s : GraphState) (uid fid : Nat),
      (users.add_friend_to_user s uid ⟨some fid⟩).res = .ok () →
        (users.check_users_are_friends
            (users.add_friend_to_user s uid ⟨some fid⟩).state uid fid).res = .ok true ∧
        (users.check_users_are_friends
            (users.add_friend_to_user s uid ⟨some fid⟩).state fid uid).res = .ok true) ∧
    (∀ (s : GraphState) (uid fid : Nat),
      (users.remove_friend_to_user s uid fid).res = .ok () →
        (users.check_users_are_friends
            (users.remove_friend_to_user s uid fid).state uid fid).res = .ok false ∧
        (users.check_users_are_friends
            (users.remove_friend_to_user s uid fid).state fid uid).res = .ok false) ∧
    (∀ (s : GraphState) (op : Op), symmFriends s → symmFriends (run s op)) := by
  refine ⟨?_, ?_, fun s op h => run_symmFriends s op h⟩
  · intro s uid fid hok
    rcases hu : repoMatchUser s uid with _ | u
    · simp [users.add_friend_to_user, hu] at hok
    rcases hf : repoMatchUser s fid with _ | f
    · simp [users.add_friend_to_user, hu, hf] at hok
    have hui := repoMatchUser_id hu
    have hfi := repoMatchUser_id hf
    rw [add_friend_state hu hf]
    subst hui
    subst hfi
    constructor <;>
      simp only [users.check_users_are_friends, repoMatchUser_set_friends, hu, hf] <;>
      rw [if_pos]
    · exact mem_addEdge.mpr (Or.inl addEdge_mem_self)
    · exact addEdge_mem_self
  · intro s uid fid hok
    rcases hu : repoMatchUser s uid with _ | u
    · simp [users.remove_friend_to_user, hu] at hok
    rcases hf : repoMatchUser s fid with _ | f
    · simp [users.remove_friend_to_user, hu, hf] at hok
    have hui := repoMatchUser_id hu
    have hfi := repoMatchUser_id hf
    rw [remove_friend_state hu hf]
    subst hui
    subst hfi
    constructor <;>
      simp only [users.check_users_are_friends, repoMatchUser_set_friends, hu, hf] <;>
      rw [if_neg]
    · intro hc
      exact (mem_removeEdge.mp (mem_removeEdge.mp hc).1).2 rfl
    · intro hc
      exact (mem_removeEdge.mp hc).2 rfl

/-- A concrete store holding two users (ids 0 and 1) and nothing else. -/
def sTwoUsers : GraphState :=
  { users := [⟨0, "Ann", "ann@x", 0⟩, ⟨1, "Bob", "bob@x", 0⟩]
    posts := [], comments := [], friends_with := []
    posts_likes := [], comments_likes := [], posts_created := []
    comments_created := [], has_comment := [], next_id := 2, now := 7 }

/-- The same store after friendship 0–1 was established in both directions. -/
def sTwoFriends : GraphState :=
  { sTwoUsers with friends_with := [(0, 1), (1, 0)] }

theorem C1_friendship_bidirectional_witness :
    ((users.check_users_are_friends
        (users.add_friend_to_user sTwoUsers 0 ⟨some 1⟩).state 0 1).res = .ok true ∧
     (users.check_users_are_friends
        (users.add_friend_to_user sTwoUsers 0 ⟨some 1⟩).state 1 0).res = .ok true) ∧
    ((users.check_users_are_friends
        (users.remove_friend_to_user sTwoFriends 0 1).state 0 1).res = .ok false ∧
     (users.check_users_are_friends
        (users.remove_friend_to_user sTwoFriends 0 1).state 1 0).res = .ok false) ∧
    symmFriends (run sTwoFriends (.deleteUser 0)) :=
  ⟨C1_friendship_bidirectional.1 sTwoUsers 0 1 (by decide),
   C1_friendship_bidirectional.2.1 sTwoFriends 0 1 (by decide),
   C1_friendship_bidirectional.2.2 sTwoFriends (.deleteUser 0) (by decide)⟩

/-- A completely empty store. -/
def sEmpty : GraphState :=
  { users := [], posts := [], comments := [], friends_with := [], posts_likes := []
    comments_likes := [], posts_created := [], comments_created := [], has_comment := []
    next_id := 0, now := 0 }

/-- Claim C2 counterexample: `create_post` with the required `title` field
absent, issued against an empty store, returns "User not found" — not
`MissingField` — because the handler looks the referenced user up in the
store before checking field presence. -/
theorem C2_missing_field_counterexample :
    (users.create_post sEmpty 0 ⟨none, some "C"⟩).res = .error .userNotFound ∧
    (users.create_post sEmpty 0 ⟨none, some "C"⟩).res ≠ .error (.missingField "title") := by
  decide

/-- Claim C2 (amended): a write request with a required input field absent
returns `MissingField` and leaves the store unchanged, except that
`create_post` (both fields), `create_comment` (its `content` check) and
`add_friend_to_user` (its `friend_id` check) first perform a read-only
lookup of a referenced user, so there `MissingField` is only reached once
that lookup succeeds; in every case no store mutation occurs. -/
theorem C2_missing_field_short_circuit :
    (∀ (s : GraphState) (d : users.CreateUserData), d.name = none →
      users.create_user s d = ⟨.error (.missingField "name"), s⟩) ∧
    (∀ (s : GraphState) (d : users.CreateUserData) (n : String),
      d.name = some n → d.email = none →
      users.create_user s d = ⟨.error (.missingField "email"), s⟩) ∧
    (∀ (s : GraphState) (uid : Nat) (d : users.CreatePostData) (u : UserNode),
      repoMatchUser s uid = some u → d.title = none →
      users.create_post s uid d = ⟨.error (.missingField "title"), s⟩) ∧
    (∀ (s : GraphState) (uid : Nat) (d : users.CreatePostData) (u : UserNode) (t : String),
      repoMatchUser s uid = some u → d.title = some t → d.content = none →
      users.create_post s uid d = ⟨.error (.missingField "content"), s⟩) ∧
    (∀ (s : GraphState) (pid : Nat) (d : posts.CreateCommentData), d.user_id = none →
      posts.create_comment s pid d = ⟨.error (.missingField "user_id"), s⟩) ∧
    (∀ (s : GraphState) (pid : Nat) (d : posts.CreateCommentData) (uid : Nat) (u : UserNode),
      d.user_id = some uid → repoMatchUser s uid = some u → d.content = none →
      posts.create_comment s pid d = ⟨.error (.missingField "content"), s⟩) ∧
    (∀ (s : GraphState) (pid : Nat) (d : posts.LikeData), d.user_id = none →
      posts.add_like s pid d = ⟨.error (.missingField "user_id"), s⟩ ∧
      posts.remove_like s pid d = ⟨.error (.missingField "user_id"), s⟩) ∧
    (∀ (s : GraphState) (cid : Nat) (d : posts.LikeData), d.user_id = none →
      comments.add_like s cid d = ⟨.error (.missingField "user_id"), s⟩ ∧
      comments.remove_like s cid d = ⟨.error (.missingField "user_id"), s⟩) ∧
    (∀ (s : GraphState) (uid : Nat) (u : UserNode), repoMatchUser s uid = some u →
      users.add_friend_to_user s uid ⟨none⟩ = ⟨.error (.missingField "friend_id"), s⟩) := by
  refine ⟨?_, ?_, ?_, ?_, ?_, ?_, ?_, ?_, ?_⟩
  · intro s d hd
    simp only [users.create_user, hd]
  · intro s d n hn he
    simp only [users.create_user, hn, he]
  · intro s uid d u hu ht
    simp only [users.create_post, hu, ht]
  · intro s uid d u t hu ht hc
    simp only [users.create_post, hu, ht, hc]
  · intro s pid d hd
    simp only [posts.create_comment, hd]
  · intro s pid d uid u hd hu hc
    simp only [posts.create_comment, hd, hu, hc]
  · intro s pid d hd
    exact ⟨by simp only [posts.add_like, hd], by simp only [posts.remove_like, hd]⟩
  · intro s cid d hd
    exact ⟨by simp only [comments.add_like, hd], by simp only [comments.remove_like, hd]⟩
  · intro s uid u hu
    simp only [users.add_friend_to_user, hu]

theorem C2_missing_field_short_circuit_witness :
    users.create_user sEmpty ⟨none, some "e"⟩ = ⟨.error (.missingField "name"), sEmpty⟩ ∧
    users.create_user sEmpty ⟨some "n", none⟩ = ⟨.error (.missingField "email"), sEmpty⟩ ∧
    users.create_post sTwoUsers 0 ⟨none, some "C"⟩ = ⟨.error (.missingField "title"), sTwoUsers⟩ ∧
    users.create_post sTwoUsers 0 ⟨some "T", none⟩ = ⟨.error (.missingField "content"), sTwoUsers⟩ ∧
    posts.create_comment sTwoUsers 5 ⟨none, some "c"⟩ = ⟨.error (.missingField "user_id"), sTwoUsers⟩ ∧
    posts.create_comment sTwoUsers 5 ⟨some 0, none⟩ = ⟨.error (.missingField "content"), sTwoUsers⟩ ∧
    posts.add_like sTwoUsers 5 ⟨none⟩ = ⟨.error (.missingField "user_id"), sTwoUsers⟩ ∧
    comments.add_like sTwoUsers 5 ⟨none⟩ = ⟨.error (.missingField "user_id"), sTwoUsers⟩ ∧
    users.add_friend_to_user sTwoUsers 0 ⟨none⟩ = ⟨.error (.missingField "friend_id"), sTwoUsers⟩ :=
  ⟨C2_missing_field_short_circuit.1 sEmpty ⟨none, some "e"⟩ rfl,
   C2_missing_field_short_circuit.2.1 sEmpty ⟨some "n", none⟩ "n" rfl rfl,
   C2_missing_field_short_circuit.2.2.1 sTwoUsers 0 ⟨none, some "C"⟩ ⟨0, "Ann", "ann@x", 0⟩ (by decide) rfl,
   C2_missing_field_short_circuit.2.2.2.1 sTwoUsers 0 ⟨some "T", none⟩ ⟨0, "Ann", "ann@x", 0⟩ "T" (by decide) rfl rfl,
   C2_missing_field_short_circuit.2.2.2.2.1 sTwoUsers 5 ⟨none, some "c"⟩ rfl,
   C2_missing_field_short_circuit.2.2.2.2.2.1 sTwoUsers 5 ⟨some 0, none⟩ 0 ⟨0, "Ann", "ann@x", 0⟩ rfl (by decide) rfl,
   (C2_missing_field_short_circuit.2.2.2.2.2.2.1 sTwoUsers 5 ⟨none⟩ rfl).1,
   (C2_missing_field_short_circuit.2.2.2.2.2.2.2.1 sTwoUsers 5 ⟨none⟩ rfl).1,
   C2_missing_field_short_circuit.2.2.2.2.2.2.2.2 sTwoUsers 0 ⟨0, "Ann", "ann@x", 0⟩ (by decide)⟩

/-- Claim C3 (the code contradicts it): for every existing user,
`get_user_posts` does not return the user's posts — the handler iterates
`user.created`, an attribute the `User` model does not define (models.py
names the `CREATED` relationship attribute `posts_created`), so the request
fails with an `AttributeError` instead of returning the post records. -/
theorem C3_get_user_posts_attribute_error :
    ∀ (s : GraphState) (uid : Nat) (u : UserNode), repoMatchUser s uid = some u →
      users.get_user_posts s uid = ⟨.error (.attributeError "created"), s⟩ := by
  intro s uid u hu
  simp only [users.get_user_posts, hu]
  rw [if_neg]
  decide

theorem C3_get_user_posts_attribute_error_witness :
    users.get_user_posts sTwoUsers 0 = ⟨.error (.attributeError "created"), sTwoUsers⟩ :=
  C3_get_user_posts_attribute_error sTwoUsers 0 ⟨0, "Ann", "ann@x", 0⟩ (by decide)

theorem repoMatchPost_mem {s : GraphState} {i : Nat} {p : PostNode}
    (h : repoMatchPost s i = some p) : p ∈ s.posts := by
  unfold repoMatchPost at h
  exact List.mem_of_find?_eq_some h

theorem repoDeletePost_comments (s : GraphState) (pid : Nat) :
    (repoDeletePost s pid).comments = s.comments := rfl

theorem foldl_deleteComment_comments (L : List Nat) :
    ∀ (s : GraphState) (c : CommentNode),
      c ∈ (L.foldl (fun acc cid => repoDeleteComment acc cid) s).comments ↔
        c ∈ s.comments ∧ c.comment_id ∉ L := by
  induction L with
  | nil => intro s c; simp
  | cons a L ih =>
    intro s c
    rw [List.foldl_cons, ih]
    unfold repoDeleteComment
    simp only [List.mem_filter, decide_eq_true_eq, List.mem_cons, not_or]
    tauto

/-- Claim C4: deleting an existing post succeeds, deletes every comment that
was linked to it through `HAS_COMMENT`, and a subsequent lookup of any of
those comment ids answers "Comment not found". -/
theorem C4_delete_post_cascades :
    ∀ (s : GraphState) (pid : Nat) (p : PostNode), repoMatchPost s pid = some p →
      (posts.delete_post s pid).res = .ok () ∧
      ∀ cid : Nat, (pid, cid) ∈ s.has_comment →
        (comments.get_comment_by_id (posts.delete_post s pid).state cid).res =
          .error .commentNotFound := by
  intro s pid p hp
  have hpi := repoMatchPost_id hp
  simp only [posts.delete_post, hp]
  refine ⟨trivial, ?_⟩
  intro cid hin
  have hmemL : cid ∈ commentsOf s p.post_id := by
    unfold commentsOf
    apply List.mem_map.mpr
    refine ⟨(pid, cid), List.mem_filter.mpr ⟨hin, ?_⟩, rfl⟩
    simp [hpi]
  have hnone : repoMatchComment
      (repoDeletePost
        ((commentsOf s p.post_id).foldl (fun acc cid => repoDeleteComment acc cid) s)
        p.post_id) cid = none := by
    unfold repoMatchComment
    rw [List.find?_eq_none]
    intro c hc
    rw [repoDeletePost_comments, foldl_deleteComment_comments] at hc
    simp only [decide_eq_true_eq]
    intro hceq
    exact hc.2 (hceq ▸ hmemL)
  simp only [comments.get_comment_by_id, hnone]

/-- A store holding one user (0), one post (1) authored by 0, and one
comment (2) on post 1 by user 0. -/
def sPostComment : GraphState :=
  { users := [⟨0, "Ann", "ann@x", 0⟩]
    posts := [⟨1, "T", "C", 0⟩]
    comments := [⟨2, "hi", 0⟩]
    friends_with := [], posts_likes := [], comments_likes := []
    posts_created := [(0, 1)], comments_created := [(0, 2)]
    has_comment := [(1, 2)], next_id := 3, now := 9 }

theorem C4_delete_post_cascades_witness :
    (posts.delete_post sPostComment 1).res = .ok () ∧
    (comments.get_comment_by_id (posts.delete_post sPostComment 1).state 2).res =
      .error .commentNotFound := by
  have h := C4_delete_post_cascades sPostComment 1 ⟨1, "T", "C", 0⟩ (by decide)
  exact ⟨h.1, h.2 2 (by decide)⟩

/-- Claim C5: a scoped comment delete where the post and the comment both
exist but the `HAS_COMMENT` edge from that post to that comment is absent
answers the distinct "Comment not found in Post" condition and leaves the
store (in particular the comment node) untouched. -/
theorem C5_scoped_delete_relation_not_found :
    ∀ (s : GraphState) (pid cid : Nat) (p : PostNode) (c : CommentNode),
      repoMatchPost s pid = some p → repoMatchComment s cid = some c →
      (pid, cid) ∉ s.has_comment →
      posts.delete_post_comment s pid cid = ⟨.error (.commentNotFoundInPost pid), s⟩ := by
  intro s pid cid p c hp hc hn
  have hpi := repoMatchPost_id hp
  have hci := repoMatchComment_id hc
  simp only [posts.delete_post_comment, hp, hc]
  rw [if_neg]
  rw [hpi, hci]
  exact hn

/-- A store holding post 1 and comment 2 with no `HAS_COMMENT` edge linking
them (the comment belongs to no post, or to a different one). -/
def sUnlinkedComment : GraphState :=
  { users := [⟨0, "Ann", "ann@x", 0⟩]
    posts := [⟨1, "T", "C", 0⟩]
    comments := [⟨2, "hi", 0⟩]
    friends_with := [], posts_likes := [], comments_likes := []
    posts_created := [(0, 1)], comments_created := [(0, 2)]
    has_comment := [], next_id := 3, now := 9 }

theorem C5_scoped_delete_relation_not_found_witness :
    posts.delete_post_comment sUnlinkedComment 1 2 =
      ⟨.error (.commentNotFoundInPost 1), sUnlinkedComment⟩ :=
  C5_scoped_delete_relation_not_found sUnlinkedComment 1 2 ⟨1, "T", "C", 0⟩ ⟨2, "hi", 0⟩
    (by decide) (by decide) (by decide)

/-- Claim C6: for two existing users, the mutual-friends query returns a
list whose underlying set is exactly the intersection of the two users'
outgoing `FRIENDS_WITH` neighbour id sets. -/
theorem C6_mutual_friends_intersection :
    ∀ (s : GraphState) (uid oid : Nat) (u o : UserNode),
      repoMatchUser s uid = some u → repoMatchUser s oid = some o →
      ∃ l : List Nat,
        (users.get_mutual_friends s uid oid).res = .ok l ∧
        l.toFinset = (friendsOf s uid).toFinset ∩ (friendsOf s oid).toFinset := by
  intro s uid oid u o hu ho
  have hui := repoMatchUser_id hu
  have hoi := repoMatchUser_id ho
  simp only [users.get_mutual_friends, hu, ho]
  refine ⟨_, rfl, ?_⟩
  rw [hui, hoi]
  ext x
  simp [List.mem_dedup, List.mem_filter, List.mem_toFinset, Finset.mem_inter]

/-- Two users 0 and 1; user 0 is friends with 2, 3, 4 and user 1 with
3, 4, 5 (each pair stored in both directions). -/
def sMutual : GraphState :=
  { users := [⟨0, "Ann", "ann@x", 0⟩, ⟨1, "Bob", "bob@x", 0⟩, ⟨2, "C", "c@x", 0⟩,
              ⟨3, "D", "d@x", 0⟩, ⟨4, "E", "e@x", 0⟩, ⟨5, "F", "f@x", 0⟩]
    posts := [], comments := []
    friends_with := [(0, 2), (2, 0), (0, 3), (3, 0), (0, 4), (4, 0),
                     (1, 3), (3, 1), (1, 4), (4, 1), (1, 5), (5, 1)]
    posts_likes := [], comments_likes := [], posts_created := []
    comments_created := [], has_comment := [], next_id := 6, now := 4 }

theorem C6_mutual_friends_intersection_witness :
    ∃ l : List Nat,
      (users.get_mutual_friends sMutual 0 1).res = .ok l ∧
      l.toFinset = (friendsOf sMutual 0).toFinset ∩ (friendsOf sMutual 1).toFinset :=
  C6_mutual_friends_intersection sMutual 0 1 ⟨0, "Ann", "ann@x", 0⟩ ⟨1, "Bob", "bob@x", 0⟩
    (by decide) (by decide)

theorem map_id_of_eq {α : Type} (f : α → α) :
    ∀ l : List α, (∀ a ∈ l, f a = a) → l.map f = l := by
  intro l
  induction l with
  | nil => intro _; rfl
  | cons a l ih =>
    intro h
    rw [List.map_cons, h a (List.mem_cons_self a l), ih]
    intro x hx
    exact h x (List.mem_cons_of_mem a hx)

theorem map_save_self {α : Type} (key : α → Nat) (u : α) (l : List α)
    (hnd : (l.map key).Nodup) (hu : u ∈ l) :
    l.map (fun x => if key x = key u then u else x) = l := by
  apply map_id_of_eq
  intro a ha
  by_cases hk : key a = key u
  · have : a = u := List.inj_on_of_nodup_map hnd ha hu hk
    rw [if_pos hk, this]
  · rw [if_neg hk]

theorem find?_map_save {α : Type} (key : α → Nat) (i : Nat) (u v : α)
    (hv : key v = key u) :
    ∀ l : List α, l.find? (fun x => decide (key x = i)) = some u →
      (l.map (fun x => if key x = key v then v else x)).find?
        (fun x => decide (key x = i)) = some v := by
  intro l
  induction l with
  | nil => intro h; exact absurd h (by simp)
  | cons a l ih =>
    intro h
    have hui : key u = i := by simpa using List.find?_some h
    rw [List.map_cons]
    by_cases ha : key a = i
    · have hu : u = a := by
        rw [List.find?_cons_of_pos] at h
        · exact (Option.some.inj h).symm
        · simp [ha]
      subst hu
      rw [if_pos (by rw [hv])]
      rw [List.find?_cons_of_pos]
      simp [hv, hui]
    · rw [List.find?_cons_of_neg] at h
      · rw [if_neg (fun hc => ha (by rw [hc, hv, hui]))]
        rw [List.find?_cons_of_neg]
        · exact ih h
        · simp [ha]
      · simp [ha]

theorem repoMatchUser_save {s : GraphState} {i : Nat} {u v : UserNode}
    (h : repoMatchUser s i = some u) (hv : v.user_id = u.user_id) :
    repoMatchUser (repoSaveUser s v) i = some v := by
  unfold repoMatchUser at h
  unfold repoMatchUser repoSaveUser
  exact find?_map_save UserNode.user_id i u v hv s.users h

theorem repoMatchPost_save {s : GraphState} {i : Nat} {p v : PostNode}
    (h : repoMatchPost s i = some p) (hv : v.post_id = p.post_id) :
    repoMatchPost (repoSavePost s v) i = some v := by
  unfold repoMatchPost at h
  unfold repoMatchPost repoSavePost
  exact find?_map_save PostNode.post_id i p v hv s.posts h

theorem repoSaveUser_self {s : GraphState} {i : Nat} {u : UserNode}
    (h : repoMatchUser s i = some u) (hnd : usersNodupKeys s) :
    repoSaveUser s u = s := by
  unfold repoSaveUser
  rw [map_save_self UserNode.user_id u s.users hnd (repoMatchUser_mem h)]

theorem repoSavePost_self {s : GraphState} {i : Nat} {p : PostNode}
    (h : repoMatchPost s i = some p) (hnd : postsNodupKeys s) :
    repoSavePost s p = s := by
  unfold repoSavePost
  rw [map_save_self PostNode.post_id p s.posts hnd (repoMatchPost_mem h)]

/-- Primary keys of the comment collection are pairwise distinct. -/
def commentsNodupKeys (s : GraphState) : Prop :=
  (s.comments.map CommentNode.comment_id).Nodup

instance (s : GraphState) : Decidable (commentsNodupKeys s) := by
  unfold commentsNodupKeys; infer_instance

theorem repoMatchComment_mem {s : GraphState} {i : Nat} {c : CommentNode}
    (h : repoMatchComment s i = some c) : c ∈ s.comments := by
  unfold repoMatchComment at h
  exact List.mem_of_find?_eq_some h

theorem repoMatchComment_save {s : GraphState} {i : Nat} {c v : CommentNode}
    (h : repoMatchComment s i = some c) (hv : v.comment_id = c.comment_id) :
    repoMatchComment (repoSaveComment s v) i = some v := by
  unfold repoMatchComment at h
  unfold repoMatchComment repoSaveComment
  exact find?_map_save CommentNode.comment_id i c v hv s.comments h

theorem repoSaveComment_self {s : GraphState} {i : Nat} {c : CommentNode}
    (h : repoMatchComment s i = some c) (hnd : commentsNodupKeys s) :
    repoSaveComment s c = s := by
  unfold repoSaveComment
  rw [map_save_self CommentNode.comment_id c s.comments hnd (repoMatchComment_mem h)]

/-- Claim C7: updates are partial — for an existing user, post or comment,
exactly the fields present in the request body are overwritten, every
absent field (including the primary key and the creation timestamp) keeps
its prior value, and an update supplying no recognized field succeeds and
leaves the store exactly as it was. -/
theorem C7_partial_update :
    (∀ (s : GraphState) (uid : Nat) (u : UserNode) (d : users.UpdateUserData),
      usersNodupKeys s → repoMatchUser s uid = some u →
        (users.update_user s uid d).res = .ok () ∧
        repoMatchUser (users.update_user s uid d).state uid =
          some ⟨u.user_id, d.name.getD u.name, d.email.getD u.email, u.created_at⟩ ∧
        (d.name = none → d.email = none → (users.update_user s uid d).state = s)) ∧
    (∀ (s : GraphState) (pid : Nat) (p : PostNode) (d : posts.UpdatePostData),
      postsNodupKeys s → repoMatchPost s pid = some p →
        (posts.update_post s pid d).res = .ok () ∧
        repoMatchPost (posts.update_post s pid d).state pid =
          some ⟨p.post_id, d.title.getD p.title, d.content.getD p.content, p.created_at⟩ ∧
        (d.title = none → d.content = none → (posts.update_post s pid d).state = s)) ∧
    (∀ (s : GraphState) (cid : Nat) (c : CommentNode) (d : comments.UpdateCommentData),
      commentsNodupKeys s → repoMatchComment s cid = some c →
        (comments.update_comment s cid d).res = .ok () ∧
        repoMatchComment (comments.update_comment s cid d).state cid =
          some ⟨c.comment_id, d.content.getD c.content, c.created_at⟩ ∧
        (d.content = none → (comments.update_comment s cid d).state = s)) := by
  refine ⟨?_, ?_, ?_⟩
  · intro s uid u d hnd hu
    obtain ⟨n, e⟩ := d
    simp only [users.update_user, hu]
    cases n <;> cases e
    · exact ⟨trivial, repoMatchUser_save hu rfl, fun _ _ => repoSaveUser_self hu hnd⟩
    · exact ⟨trivial, repoMatchUser_save hu rfl, fun _ h => Option.noConfusion h⟩
    · exact ⟨trivial, repoMatchUser_save hu rfl, fun h _ => Option.noConfusion h⟩
    · exact ⟨trivial, repoMatchUser_save hu rfl, fun h _ => Option.noConfusion h⟩
  · intro s pid p d hnd hp
    obtain ⟨t, c⟩ := d
    simp only [posts.update_post, hp]
    cases t <;> cases c
    · exact ⟨trivial, repoMatchPost_save hp rfl, fun _ _ => repoSavePost_self hp hnd⟩
    · exact ⟨trivial, repoMatchPost_save hp rfl, fun _ h => Option.noConfusion h⟩
    · exact ⟨trivial, repoMatchPost_save hp rfl, fun h _ => Option.noConfusion h⟩
    · exact ⟨trivial, repoMatchPost_save hp rfl, fun h _ => Option.noConfusion h⟩
  · intro s cid c d hnd hc
    obtain ⟨ct⟩ := d
    simp only [comments.update_comment, hc]
    cases ct
    · exact ⟨trivial, repoMatchComment_save hc rfl, fun _ => repoSaveComment_self hc hnd⟩
    · exact ⟨trivial, repoMatchComment_save hc rfl, fun h => Option.noConfusion h⟩

theorem C7_partial_update_witness :
    (usersNodupKeys sPostComment ∧ postsNodupKeys sPostComment ∧
     commentsNodupKeys sPostComment) ∧
    ((users.update_user sPostComment 0 ⟨some "Zoe", none⟩).res = .ok () ∧
     repoMatchUser (users.update_user sPostComment 0 ⟨some "Zoe", none⟩).state 0 =
       some ⟨0, "Zoe", "ann@x", 0⟩ ∧
     (users.update_user sPostComment 0 ⟨none, none⟩).state = sPostComment) ∧
    ((posts.update_post sPostComment 1 ⟨none, some "C2"⟩).res = .ok () ∧
     repoMatchPost (posts.update_post sPostComment 1 ⟨none, some "C2"⟩).state 1 =
       some ⟨1, "T", "C2", 0⟩ ∧
     (posts.update_post sPostComment 1 ⟨none, none⟩).state = sPostComment) ∧
    ((comments.update_comment sPostComment 2 ⟨none⟩).res = .ok () ∧
     (comments.update_comment sPostComment 2 ⟨none⟩).state = sPostComment) := by
  refine ⟨⟨by decide, by decide, by decide⟩, ?_, ?_, ?_⟩
  · obtain ⟨h1, h2, _⟩ :=
      C7_partial_update.1 sPostComment 0 ⟨0, "Ann", "ann@x", 0⟩ ⟨some "Zoe", none⟩
        (by decide) (by decide)
    obtain ⟨_, _, h3⟩ :=
      C7_partial_update.1 sPostComment 0 ⟨0, "Ann", "ann@x", 0⟩ ⟨none, none⟩
        (by decide) (by decide)
    exact ⟨h1, h2, h3 rfl rfl⟩
  · obtain ⟨h1, h2, _⟩ :=
      C7_partial_update.2.1 sPostComment 1 ⟨1, "T", "C", 0⟩ ⟨none, some "C2"⟩
        (by decide) (by decide)
    obtain ⟨_, _, h3⟩ :=
      C7_partial_update.2.1 sPostComment 1 ⟨1, "T", "C", 0⟩ ⟨none, none⟩
        (by decide) (by decide)
    exact ⟨h1, h2, h3 rfl rfl⟩
  · obtain ⟨h1, _, h3⟩ :=
      C7_partial_update.2.2 sPostComment 2 ⟨2, "hi", 0⟩ ⟨none⟩
        (by decide) (by decide)
    exact ⟨h1, h3 rfl⟩

theorem repoMatchUser_set_posts_likes (s : GraphState) (L : List (Nat × Nat)) (i : Nat) :
    repoMatchUser { s with posts_likes := L } i = repoMatchUser s i := rfl

theorem repoMatchPost_set_posts_likes (s : GraphState) (L : List (Nat × Nat)) (i : Nat) :
    repoMatchPost { s with posts_likes := L } i = repoMatchPost s i := rfl

theorem repoMatchUser_set_comments_likes (s : GraphState) (L : List (Nat × Nat)) (i : Nat) :
    repoMatchUser { s with comments_likes := L } i = repoMatchUser s i := rfl

theorem repoMatchComment_set_comments_likes (s : GraphState) (L : List (Nat × Nat)) (i : Nat) :
    repoMatchComment { s with comments_likes := L } i = repoMatchComment s i := rfl

/-- Claim C8: for an existing user and an existing post (or comment) the
`LIKES` edge has set-membership semantics — liking twice leaves the same
final store state as liking once, and unliking with no `LIKES` edge present
succeeds and leaves the store exactly unchanged. -/
theorem C8_likes_set_semantics :
    (∀ (s : GraphState) (pid uid : Nat) (u : UserNode) (p : PostNode),
      repoMatchUser s uid = some u → repoMatchPost s pid = some p →
        ((posts.add_like (posts.add_like s pid ⟨some uid⟩).state pid ⟨some uid⟩).state =
          (posts.add_like s pid ⟨some uid⟩).state ∧
         (posts.add_like s pid ⟨some uid⟩).res = .ok ()) ∧
        ((uid, pid) ∉ s.posts_likes →
          posts.remove_like s pid ⟨some uid⟩ = ⟨.ok (), s⟩)) ∧
    (∀ (s : GraphState) (cid uid : Nat) (u : UserNode) (c : CommentNode),
      repoMatchUser s uid = some u → repoMatchComment s cid = some c →
        ((comments.add_like (comments.add_like s cid ⟨some uid⟩).state cid ⟨some uid⟩).state =
          (comments.add_like s cid ⟨some uid⟩).state ∧
         (comments.add_like s cid ⟨some uid⟩).res = .ok ()) ∧
        ((uid, cid) ∉ s.comments_likes →
          comments.remove_like s cid ⟨some uid⟩ = ⟨.ok (), s⟩)) := by
  constructor
  · intro s pid uid u p hu hp
    have hui := repoMatchUser_id hu
    have hpi := repoMatchPost_id hp
    refine ⟨⟨?_, by simp only [posts.add_like, hu, hp]⟩, ?_⟩
    · simp only [posts.add_like, hu, hp, repoMatchUser_set_posts_likes,
        repoMatchPost_set_posts_likes]
      rw [addEdge_eq_of_mem addEdge_mem_self]
    · intro hn
      simp only [posts.remove_like, hu, hp]
      rw [removeEdge_eq_of_not_mem]
      rw [hui, hpi]
      exact hn
  · intro s cid uid u c hu hc
    have hui := repoMatchUser_id hu
    have hci := repoMatchComment_id hc
    refine ⟨⟨?_, by simp only [comments.add_like, hu, hc]⟩, ?_⟩
    · simp only [comments.add_like, hu, hc, repoMatchUser_set_comments_likes,
        repoMatchComment_set_comments_likes]
      rw [addEdge_eq_of_mem addEdge_mem_self]
    · intro hn
      simp only [comments.remove_like, hu, hc]
      rw [removeEdge_eq_of_not_mem]
      rw [hui, hci]
      exact hn

theorem C8_likes_set_semantics_witness :
    ((posts.add_like (posts.add_like sPostComment 1 ⟨some 0⟩).state 1 ⟨some 0⟩).state =
       (posts.add_like sPostComment 1 ⟨some 0⟩).state ∧
     posts.remove_like sPostComment 1 ⟨some 0⟩ = ⟨.ok (), sPostComment⟩) ∧
    ((comments.add_like (comments.add_like sPostComment 2 ⟨some 0⟩).state 2 ⟨some 0⟩).state =
       (comments.add_like sPostComment 2 ⟨some 0⟩).state ∧
     comments.remove_like sPostComment 2 ⟨some 0⟩ = ⟨.ok (), sPostComment⟩) := by
  obtain ⟨⟨h1, _⟩, h2⟩ :=
    C8_likes_set_semantics.1 sPostComment 1 0 ⟨0, "Ann", "ann@x", 0⟩ ⟨1, "T", "C", 0⟩
      (by decide) (by decide)
  obtain ⟨⟨h3, _⟩, h4⟩ :=
    C8_likes_set_semantics.2 sPostComment 2 0 ⟨0, "Ann", "ann@x", 0⟩ ⟨2, "hi", 0⟩
      (by decide) (by decide)
  exact ⟨⟨h1, h2 (by decide)⟩, ⟨h3, h4 (by decide)⟩⟩

/-- Claim C9: creating a user with both required fields present draws a
fresh key (colliding with no stored user) and stamps the creation time, and
an immediate lookup of that key returns the created entity with the
supplied name and email preserved exactly. -/
theorem C9_create_then_get :
    ∀ (s : GraphState) (n e : String), usersWF s →
      (users.create_user s ⟨some n, some e⟩).res = .ok () ∧
      (users.get_user_by_id (users.create_user s ⟨some n, some e⟩).state s.next_id).res =
        .ok ⟨s.next_id, n, e, s.now⟩ ∧
      ∀ u ∈ s.users, u.user_id ≠ s.next_id := by
  intro s n e hwf
  refine ⟨rfl, ?_, fun u hu => Nat.ne_of_lt (hwf u hu)⟩
  have hfind : repoMatchUser (users.create_user s ⟨some n, some e⟩).state s.next_id =
      some ⟨s.next_id, n, e, s.now⟩ := by
    show repoMatchUser (graphCreateUser s ⟨s.next_id, n, e, s.now⟩) s.next_id = _
    unfold repoMatchUser graphCreateUser
    dsimp only
    rw [List.find?_append]
    have h1 : s.users.find? (fun u => decide (u.user_id = s.next_id)) = none := by
      rw [List.find?_eq_none]
      intro u hu
      simp only [decide_eq_true_eq]
      exact Nat.ne_of_lt (hwf u hu)
    rw [h1]
    simp
  simp only [users.get_user_by_id, hfind]

theorem C9_create_then_get_witness :
    usersWF sTwoUsers ∧
    ((users.create_user sTwoUsers ⟨some "Cid", some "cid@x"⟩).res = .ok () ∧
     (users.get_user_by_id (users.create_user sTwoUsers ⟨some "Cid", some "cid@x"⟩).state 2).res =
       .ok ⟨2, "Cid", "cid@x", 7⟩ ∧
     ∀ u ∈ sTwoUsers.users, u.user_id ≠ 2) :=
  ⟨by decide, C9_create_then_get sTwoUsers "Cid" "cid@x" (by decide)⟩

/-- Claim C10: the public interface has no self-friendship guard — for any
existing user A, add-friend(A, A) succeeds, creates a `FRIENDS_WITH`
self-loop, and the friendship check on (A, A) then answers `true`. -/
theorem C10_self_friendship :
    ∀ (s : GraphState) (uid : Nat) (u : UserNode), repoMatchUser s uid = some u →
      (users.add_friend_to_user s uid ⟨some uid⟩).res = .ok () ∧
      (uid, uid) ∈ (users.add_friend_to_user s uid ⟨some uid⟩).state.friends_with ∧
      (users.check_users_are_friends
          (users.add_friend_to_user s uid ⟨some uid⟩).state uid uid).res = .ok true := by
  intro s uid u hu
  have hui := repoMatchUser_id hu
  rw [add_friend_state hu hu]
  refine ⟨rfl, ?_, ?_⟩
  · rw [hui] at *
    exact addEdge_mem_self
  · simp only [users.check_users_are_friends, repoMatchUser_set_friends, hu]
    rw [if_pos addEdge_mem_self]

theorem C10_self_friendship_witness :
    (users.add_friend_to_user sTwoUsers 0 ⟨some 0⟩).res = .ok () ∧
    (0, 0) ∈ (users.add_friend_to_user sTwoUsers 0 ⟨some 0⟩).state.friends_with ∧
    (users.check_users_are_friends
        (users.add_friend_to_user sTwoUsers 0 ⟨some 0⟩).state 0 0).res = .ok true :=
  C10_self_friendship sTwoUsers 0 ⟨0, "Ann", "ann@x", 0⟩ (by decide)
